import Mathlib

/-!
# Verification of the BMS_BLE coordinator core

Shallow embedding of `custom_components/bms_ble/coordinator.py` (class
`BTBmsCoordinator`) and the claims about it:

* link history (`deque([False], maxlen=100)`), link quality, staleness detector,
* the polling cycle `_async_update_data` (failure classification and link-history
  bookkeeping),
* the JBD software-lock reset command `async_reset_software_lock`
  (frame codec, send with fallback, verification loop).

Python `deque` with `maxlen=100` is modelled as a `List Bool` where appending
drops the oldest elements beyond capacity 100.  Time quantities
(`monotonic() - start`, `UPDATE_INTERVAL`) are modelled as rationals; for the
nonnegative elapsed time produced by a monotonic clock, Python `int()`
truncation coincides with the floor used here.
-/

/-- Capacity of the link-history deque (`maxlen=100`). -/
def linkCapacity : Nat := 100

/-- `deque.extend` on a deque with `maxlen = 100`: append on the right,
evicting the oldest (leftmost) entries beyond capacity. -/
def dequeExtend (q xs : List Bool) : List Bool :=
  let r := q ++ xs
  r.drop (r.length - linkCapacity)

/-- `self._link_q[-1] = b`: overwrite the newest (rightmost) entry. -/
def setLast (q : List Bool) (b : Bool) : List Bool :=
  q.dropLast ++ [b]

/-- `link_quality` property: `self._link_q.count(True) * 100 // len(self._link_q)`. -/
def link_quality (q : List Bool) : Nat :=
  q.count true * 100 / q.length

/-- Mutable coordinator state relevant to the claims: the link history
`_link_q` and the staleness flag `_stale`. -/
structure CoordState where
  linkQ : List Bool
  stale : Bool
deriving DecidableEq

/-- `_device_stale`: returns the updated `_stale` flag.  Mirrors

```python
if self._link_q[-1]:
    self._stale = False
elif (not self._stale and self.link_quality <= 10
      and list(self._link_q)[-10:] == [False] * 10):
    self._stale = True
return self._stale
```

`list(q)[-10:]` is the suffix `q.drop (q.length - 10)`. -/
def device_stale (q : List Bool) (stale : Bool) : Bool :=
  if q.getLastD false = true then false
  else if stale = false ∧ link_quality q ≤ 10 ∧
      q.drop (q.length - 10) = List.replicate 10 false then true
  else stale

/-- Telemetry sample (`BMSSample`): only the fields the claims touch.
`problem_code` distinguishes a present integer value, a present non-integer
value and an absent key, matching `isinstance(data.get("problem_code"), int)`. -/
inductive PCode where
  | intVal (n : Nat)
  | nonInt
  | missing
deriving DecidableEq

structure BMSSample where
  problem_code : PCode
  chrg_mosfet : Option Bool
  dischrg_mosfet : Option Bool
deriving DecidableEq

/-- Result of one gateway call `await self._device.async_update()`. -/
inductive GatewayResult where
  | ok (s : BMSSample)
  | timeout
  | transportError (msg : String)
  | noData
deriving DecidableEq

/-- Outcome of `_async_update_data`: a sample, a re-raised `TimeoutError`,
or an `UpdateFailed`. -/
inductive UpdateResult where
  | ok (s : BMSSample)
  | errTimeout (msg : String)
  | errUpdateFailed (msg : String)
deriving DecidableEq

def timeoutMsg : String := "BMS communication timed out"

def noDataMsg : String := "no valid data received."

/-- `1 + int((monotonic() - start) / UPDATE_INTERVAL)`: the number of `False`
entries pushed by the `finally` block. -/
def failEntries (elapsed interval : ℚ) : Nat :=
  1 + (⌊elapsed / interval⌋).toNat

/-- `_async_update_data`, as a function of the pre-state, the gateway call's
outcome and the elapsed wall-clock time of that call.  Returns the post-state,
the classified result, and whether `disconnect(reset=True)` was invoked
(which happens, before the gateway call, exactly when `_device_stale()`
returned `True`). -/
def async_update_data (st : CoordState) (g : GatewayResult)
    (elapsed interval : ℚ) : CoordState × UpdateResult × Bool :=
  let stale1 := device_stale st.linkQ st.stale
  let q1 := dequeExtend st.linkQ (List.replicate (failEntries elapsed interval) false)
  match g with
  | .ok s => (⟨setLast q1 true, stale1⟩, .ok s, stale1)
  | .timeout => (⟨q1, stale1⟩, .errTimeout timeoutMsg, stale1)
  | .transportError m =>
      (⟨q1, stale1⟩, .errUpdateFailed ("BMS communication failed: " ++ m), stale1)
  | .noData => (⟨q1, stale1⟩, .errUpdateFailed noDataMsg, stale1)

/-- One coordinator cycle's effect on the link history, abstracted over the
outcome and the interval overrun `k = int(elapsed / UPDATE_INTERVAL)`:
a failing cycle pushes `1 + k` `False` entries; a succeeding cycle pushes the
same entries and then overwrites the newest one with `True`. -/
inductive CoordOp where
  | fail (k : Nat)
  | succeed (k : Nat)

def applyCycle (q : List Bool) (op : CoordOp) : List Bool :=
  match op with
  | .fail k => dequeExtend q (List.replicate (1 + k) false)
  | .succeed k => setLast (dequeExtend q (List.replicate (1 + k) false)) true

/-- Link history after a sequence of cycles, starting from the seed
`deque([False], maxlen=100)` of `__init__`. -/
def runCycles (ops : List CoordOp) : List Bool :=
  ops.foldl applyCycle [false]

/-! ## Frame codec of `async_reset_software_lock` -/

/-- `frame = bytearray([0xDD, 0x5A, cmd, len(data), *data])` with
`cmd = 0xE1`, `data = bytes([0x00, 0x00])`. -/
def resetFrameHeader : List Nat :=
  [0xDD, 0x5A, 0xE1, 0x02, 0x00, 0x00]

/-- `crc = (0x10000 - sum(frame[2:])) & 0xFFFF`. -/
def resetCrc : Nat :=
  (0x10000 - (resetFrameHeader.drop 2).sum) &&& 0xFFFF

/-- The complete 9-byte frame: header, big-endian checksum, terminator `0x77`. -/
def resetFrame : List Nat :=
  resetFrameHeader ++ [resetCrc / 0x100, resetCrc % 0x100] ++ [0x77]

/-! ## Verification loop of `async_reset_software_lock` -/

/-- Python truthiness of an optional boolean (`bool(x)` where `x` is the
result of `data.get(...)`). -/
def pyBool : Option Bool → Bool
  | none => false
  | some b => b

/-- One verification attempt's decision, as a function of `self.data` after
`async_refresh`: `true` means return (lock considered cleared), `false`
means `continue` to the next attempt. -/
def checkAttempt (d? : Option BMSSample) : Bool :=
  match d? with
  | none => false
  | some d =>
    match d.problem_code with
    | .intVal n => if n &&& (1 <<< 12) ≠ 0 then false else true
    | _ =>
      if d.chrg_mosfet = none ∧ d.dischrg_mosfet = none then false
      else pyBool d.chrg_mosfet && pyBool d.dischrg_mosfet

/-- Events observable at the gateway/scheduler boundary during
`async_reset_software_lock`. -/
inductive ResetEvent where
  | lockAcquire
  | connect
  | sendFrame (frame : List Nat) (waitForNotify : Bool)
  | sleep (seconds : ℚ)
  | refresh
deriving DecidableEq

/-- `for attempt in range(3): await asyncio.sleep(0.5 if attempt else 1.0);
await self.async_refresh(); ...` — `rd i` is `self.data` after attempt `i`'s
refresh.  Returns whether the loop returned successfully, and the event
trace.  `fuel` counts the remaining iterations, `i` the current attempt. -/
def verifyLoop (rd : Nat → Option BMSSample) : Nat → Nat → Bool × List ResetEvent
  | 0, _ => (false, [])
  | fuel + 1, i =>
    let evs : List ResetEvent :=
      [.sleep (if i = 0 then 1 else 1/2), .refresh]
    if checkAttempt (rd i) then (true, evs)
    else
      let rest := verifyLoop rd fuel (i + 1)
      (rest.1, evs ++ rest.2)

def unsupportedMsg : String :=
  "Reset software lock is only supported for JBD BMS."

def exhaustedMsg : String :=
  "Software lock still active or status unavailable after reset command."

/-- `async_reset_software_lock`, as a function of whether the device is a
`JbdBms` instance, whether the first `_await_msg` (with notification) timed
out (forcing the fire-and-forget resend), and the per-attempt refresh data.
Returns the outcome and the trace of gateway/scheduler events. -/
def async_reset_software_lock (isJbd : Bool) (sendTimesOut : Bool)
    (rd : Nat → Option BMSSample) : Except String Unit × List ResetEvent :=
  if isJbd = false then (.error unsupportedMsg, [])
  else
    let sendEvents : List ResetEvent :=
      [.lockAcquire, .connect, .sendFrame resetFrame true] ++
        (if sendTimesOut then [.sendFrame resetFrame false] else [])
    let v := verifyLoop rd 3 0
    if v.1 then (.ok (), sendEvents ++ v.2)
    else (.error exhaustedMsg, sendEvents ++ v.2)

/-! ## Helper lemmas -/

lemma length_dequeExtend (q xs : List Bool) :
    (dequeExtend q xs).length = min (q.length + xs.length) 100 := by
  simp only [dequeExtend, linkCapacity, List.length_drop, List.length_append]
  omega

lemma length_setLast (q : List Bool) (b : Bool) (h : q ≠ []) :
    (setLast q b).length = q.length := by
  have : 0 < q.length := List.length_pos.mpr h
  simp only [setLast, List.length_append, List.length_dropLast, List.length_singleton]
  omega

lemma getLastD_drop {l : List Bool} {k : Nat} (h : k < l.length) (d : Bool) :
    (l.drop k).getLastD d = l.getLastD d := by
  have hne : l.drop k ≠ [] := by
    apply List.ne_nil_of_length_pos
    simp only [List.length_drop]
    omega
  calc (l.drop k).getLastD d
      = (l.drop k).getLast?.getD d := List.getLastD_eq_getLast? d _
    _ = (l.take k ++ l.drop k).getLast?.getD d := by
        rw [List.getLast?_append_of_ne_nil _ hne]
    _ = l.getLast?.getD d := by rw [List.take_append_drop]
    _ = l.getLastD d := (List.getLastD_eq_getLast? d l).symm

lemma last_false_of_suffix (q : List Bool) (h : q ≠ [])
    (hs : q.drop (q.length - 10) = List.replicate 10 false) :
    q.getLastD false = false := by
  have hlen : (q.drop (q.length - 10)).length = 10 := by rw [hs]; simp
  have hq : 0 < q.length := List.length_pos.mpr h
  have hk : q.length - 10 < q.length := by
    simp only [List.length_drop] at hlen
    omega
  rw [← getLastD_drop hk false, hs]
  simp

lemma suffix_eq_replicate_iff (q : List Bool) :
    q.drop (q.length - 10) = List.replicate 10 false ↔
      10 ≤ q.length ∧ ∀ b ∈ q.drop (q.length - 10), b = false := by
  rw [List.eq_replicate_iff]
  constructor
  · rintro ⟨h1, h2⟩
    refine ⟨?_, h2⟩
    simp only [List.length_drop] at h1
    omega
  · rintro ⟨h1, h2⟩
    refine ⟨?_, h2⟩
    simp only [List.length_drop]
    omega

/-! ## Claims C1, C2, C5 -/

/-- C1 (counterexample): the spec's example frame `DD 5A E1 02 00 00 1E 1D 77`
is NOT what `async_reset_software_lock` builds: the checksum of
`E1 02 00 00` is `(0x10000 - 0xE3) & 0xFFFF = 0xFF1D`, not `0x1E1D`. -/
theorem C1_frame_bytes_counterexample :
    resetFrame ≠ [0xDD, 0x5A, 0xE1, 0x02, 0x00, 0x00, 0x1E, 0x1D, 0x77] := by
  decide

/-- C1 (amended): the frame built for the software-lock reset command
(command byte `0xE1`, payload `[0x00, 0x00]`) is exactly the 9 bytes
`DD 5A E1 02 00 00 FF 1D 77`; its two checksum bytes are the big-endian
encoding of `(0x10000 - (0xE1 + 0x02 + 0x00 + 0x00)) % 0x10000 = 0xFF1D`,
and they are followed by the terminator `0x77`. -/
theorem C1_frame_bytes_amended :
    resetFrame = [0xDD, 0x5A, 0xE1, 0x02, 0x00, 0x00, 0xFF, 0x1D, 0x77] ∧
    resetFrame.length = 9 ∧
    0xFF * 0x100 + 0x1D = (0x10000 - (0xE1 + 0x02 + 0x00 + 0x00)) % 0x10000 ∧
    resetFrame = resetFrameHeader ++ [resetCrc / 0x100, resetCrc % 0x100] ++ [0x77] ∧
    resetFrame.getLastD 0 = 0x77 := by
  refine ⟨by decide, by decide, by decide, rfl, by decide⟩

/-- C2: the staleness detector clears whenever the newest history entry is
`true` (whatever the prior flag); starting from a clear flag it outputs `true`
exactly when the link quality is ≤ 10 and the 10 most recent entries are all
`false`; in every other situation it returns the flag unchanged. -/
theorem C2_staleness_detector (q : List Bool) (stale : Bool) (h : q ≠ []) :
    (q.getLastD false = true → device_stale q stale = false) ∧
    (device_stale q false = true ↔
      link_quality q ≤ 10 ∧ 10 ≤ q.length ∧
        ∀ b ∈ q.drop (q.length - 10), b = false) ∧
    ((q.getLastD false = false ∧
        ¬(stale = false ∧ link_quality q ≤ 10 ∧
          q.drop (q.length - 10) = List.replicate 10 false)) →
      device_stale q stale = stale) := by
  refine ⟨?_, ?_, ?_⟩
  · intro hlast
    unfold device_stale
    rw [if_pos hlast]
  · by_cases hl : q.getLastD false = true
    · constructor
      · intro hd
        unfold device_stale at hd
        rw [if_pos hl] at hd
        exact absurd hd (by simp)
      · rintro ⟨hq10, hge, hall⟩
        have hsuf : q.drop (q.length - 10) = List.replicate 10 false :=
          (suffix_eq_replicate_iff q).mpr ⟨hge, hall⟩
        have hfalse := last_false_of_suffix q h hsuf
        rw [hl] at hfalse
        exact absurd hfalse (by simp)
    · constructor
      · intro hd
        unfold device_stale at hd
        rw [if_neg hl] at hd
        by_cases hc : link_quality q ≤ 10 ∧
            q.drop (q.length - 10) = List.replicate 10 false
        · exact ⟨hc.1, (suffix_eq_replicate_iff q).mp hc.2⟩
        · rw [if_neg (fun hh => hc hh.2)] at hd
          exact absurd hd (by simp)
      · rintro ⟨hq10, hge, hall⟩
        have hsuf : q.drop (q.length - 10) = List.replicate 10 false :=
          (suffix_eq_replicate_iff q).mpr ⟨hge, hall⟩
        unfold device_stale
        rw [if_neg hl, if_pos ⟨rfl, hq10, hsuf⟩]
  · rintro ⟨hlast, hnc⟩
    have hl : ¬(q.getLastD false = true) := by
      rw [hlast]
      simp
    unfold device_stale
    rw [if_neg hl, if_neg hnc]

/-- C2 witness: a history of 10 failures with a clear flag trips the
detector. -/
theorem C2_staleness_detector_witness :
    device_stale (List.replicate 10 false) false = true :=
  ((C2_staleness_detector (List.replicate 10 false) false (by decide)).2.1).mpr
    (by decide)

/-- C5: from the seed `[False]`, after any sequence of cycles the link
history's length stays in `[1, 100]`, and the link quality is the
integer-truncated percentage of successes, lying in `[0, 100]`. -/
theorem C5_link_quality_bounds (ops : List CoordOp) :
    1 ≤ (runCycles ops).length ∧ (runCycles ops).length ≤ 100 ∧
    link_quality (runCycles ops) =
      (runCycles ops).count true * 100 / (runCycles ops).length ∧
    link_quality (runCycles ops) ≤ 100 := by
  have key : ∀ (ops : List CoordOp) (q : List Bool), 1 ≤ q.length → q.length ≤ 100 →
      1 ≤ (ops.foldl applyCycle q).length ∧ (ops.foldl applyCycle q).length ≤ 100 := by
    intro ops
    induction ops with
    | nil => intro q h1 h2; exact ⟨h1, h2⟩
    | cons op ops ih =>
      intro q h1 h2
      rw [List.foldl_cons]
      apply ih
      all_goals
        cases op with
        | fail k =>
          simp only [applyCycle, length_dequeExtend, List.length_replicate]
          omega
        | succeed k =>
          have hne : dequeExtend q (List.replicate (1 + k) false) ≠ [] := by
            apply List.ne_nil_of_length_pos
            rw [length_dequeExtend]
            simp only [List.length_replicate]
            omega
          simp only [applyCycle, length_setLast _ _ hne, length_dequeExtend,
            List.length_replicate]
          omega
  obtain ⟨h1, h2⟩ := key ops [false] (by decide) (by decide)
  refine ⟨h1, h2, rfl, ?_⟩
  have hc : (runCycles ops).count true ≤ (runCycles ops).length :=
    List.count_le_length _ _
  calc link_quality (runCycles ops)
      = (runCycles ops).count true * 100 / (runCycles ops).length := rfl
    _ ≤ (runCycles ops).length * 100 / (runCycles ops).length :=
        Nat.div_le_div_right (Nat.mul_le_mul_right 100 hc)
    _ = 100 := Nat.mul_div_cancel_left 100 h1

/-! ## Helper lemmas for the polling cycle -/

lemma dequeExtend_eq_append (q xs : List Bool) (h : q.length + xs.length ≤ 100) :
    dequeExtend q xs = q ++ xs := by
  show (q ++ xs).drop ((q ++ xs).length - linkCapacity) = q ++ xs
  have hz : (q ++ xs).length - linkCapacity = 0 := by
    simp only [List.length_append, linkCapacity]
    omega
  rw [hz, List.drop_zero]

lemma getLastD_concat (l : List Bool) (a d : Bool) : (l ++ [a]).getLastD d = a := by
  rw [List.getLastD_eq_getLast? d, List.getLast?_concat]
  rfl

lemma getLastD_dequeExtend (q xs : List Bool) (d : Bool) (hx : xs ≠ []) :
    (dequeExtend q xs).getLastD d = xs.getLastD d := by
  have hxl : 0 < xs.length := List.length_pos.mpr hx
  have hk : (q ++ xs).length - 100 < (q ++ xs).length := by
    simp only [List.length_append]
    omega
  unfold dequeExtend linkCapacity
  rw [getLastD_drop hk d]
  calc (q ++ xs).getLastD d
      = (q ++ xs).getLast?.getD d := List.getLastD_eq_getLast? d _
    _ = xs.getLast?.getD d := by rw [List.getLast?_append_of_ne_nil _ hx]
    _ = xs.getLastD d := (List.getLastD_eq_getLast? d xs).symm

lemma getLastD_replicate_false (n : Nat) (h : 1 ≤ n) :
    (List.replicate n false).getLastD false = false := by
  obtain ⟨m, rfl⟩ : ∃ m, n = m + 1 := ⟨n - 1, by omega⟩
  rw [List.replicate_succ' m false, getLastD_concat]

lemma one_le_failEntries (elapsed interval : ℚ) : 1 ≤ failEntries elapsed interval :=
  Nat.le_add_right 1 _

lemma failEntries_replicate_ne_nil (elapsed interval : ℚ) :
    List.replicate (failEntries elapsed interval) false ≠ [] := by
  apply List.ne_nil_of_length_pos
  simp only [List.length_replicate]
  exact one_le_failEntries elapsed interval

lemma update_reset_flag (st : CoordState) (g : GatewayResult) (elapsed interval : ℚ) :
    (async_update_data st g elapsed interval).2.2 = device_stale st.linkQ st.stale := by
  cases g <;> rfl

lemma update_post_stale (st : CoordState) (g : GatewayResult) (elapsed interval : ℚ) :
    (async_update_data st g elapsed interval).1.stale = device_stale st.linkQ st.stale := by
  cases g <;> rfl

lemma device_stale_last_true (q : List Bool) (stale : Bool) (h : q.getLastD false = true) :
    device_stale q stale = false := by
  unfold device_stale
  rw [if_pos h]

lemma device_stale_stale_last_false (q : List Bool) (h : q.getLastD false = false) :
    device_stale q true = true := by
  unfold device_stale
  rw [if_neg (by rw [h]; simp), if_neg (fun hh => by simp at hh)]

lemma floor_div_eq_zero (elapsed interval : ℚ) (h0 : 0 ≤ elapsed) (hi : 0 < interval)
    (hlt : elapsed < interval) : ⌊elapsed / interval⌋ = 0 :=
  Int.floor_eq_zero_iff.mpr ⟨div_nonneg h0 hi.le, (div_lt_one hi).mpr hlt⟩

/-! ## Claims C3, C4, C10 -/

/-- C3: on every failing refresh — gateway timeout (propagated distinctly as a
timeout), transport/end-of-stream error (a communication `UpdateFailed`), or
empty result (a no-data `UpdateFailed`) — exactly
`1 + floor(elapsed / updateInterval)` `false` entries are pushed into the link
history before the failure propagates; a timeout after exactly 2.5 update
intervals pushes exactly 3 entries. -/
theorem C3_failure_classification_and_history (st : CoordState) (m : String)
    (elapsed interval : ℚ) (h0 : 0 ≤ elapsed) (hi : 0 < interval) :
    (∀ g, (g = GatewayResult.timeout ∨ g = GatewayResult.transportError m ∨
        g = GatewayResult.noData) →
      (async_update_data st g elapsed interval).1.linkQ =
        dequeExtend st.linkQ
          (List.replicate (1 + (⌊elapsed / interval⌋).toNat) false) ∧
      (st.linkQ.length + (1 + (⌊elapsed / interval⌋).toNat) ≤ 100 →
        (async_update_data st g elapsed interval).1.linkQ =
          st.linkQ ++ List.replicate (1 + (⌊elapsed / interval⌋).toNat) false)) ∧
    (async_update_data st .timeout elapsed interval).2.1 =
      UpdateResult.errTimeout timeoutMsg ∧
    (∀ s, (async_update_data st .timeout elapsed interval).2.1 ≠
      UpdateResult.errUpdateFailed s) ∧
    (async_update_data st (.transportError m) elapsed interval).2.1 =
      UpdateResult.errUpdateFailed ("BMS communication failed: " ++ m) ∧
    (async_update_data st .noData elapsed interval).2.1 =
      UpdateResult.errUpdateFailed noDataMsg ∧
    (elapsed = 5/2 * interval → failEntries elapsed interval = 3) := by
  refine ⟨?_, rfl, fun s hs => UpdateResult.noConfusion hs, rfl, rfl, ?_⟩
  · rintro g (rfl | rfl | rfl) <;>
      refine ⟨rfl, fun hle => ?_⟩ <;>
      · show dequeExtend st.linkQ _ = _
        rw [dequeExtend_eq_append _ _ (by rw [List.length_replicate]; exact hle)]
        rfl
  · intro h25
    unfold failEntries
    rw [h25, mul_div_assoc, div_self (ne_of_gt hi), mul_one]
    norm_num
    rfl

/-- C3 witness: a timeout at elapsed = 2.5 intervals (interval 1) pushes
exactly 3 `false` entries. -/
theorem C3_failure_classification_and_history_witness :
    (async_update_data ⟨[false], false⟩ GatewayResult.timeout (5/2) 1).2.1 =
      UpdateResult.errTimeout timeoutMsg ∧
    failEntries (5/2) 1 = 3 :=
  ⟨(C3_failure_classification_and_history ⟨[false], false⟩ "" (5/2) 1
      (by norm_num) (by norm_num)).2.1,
   (C3_failure_classification_and_history ⟨[false], false⟩ "" (5/2) 1
      (by norm_num) (by norm_num)).2.2.2.2.2 (by norm_num)⟩

/-- C4: on a successful refresh the last entry pushed during the call is
overwritten to `true` rather than a success entry being appended: the history
has the same length as after the failure-path pushes; a call completing within
one interval contributes exactly one entry (flipped to success); a call whose
duration spans `N` nominal intervals (`1 + floor(elapsed/interval) = N`)
contributes `N` entries of which only the last is `true`. -/
theorem C4_success_overwrites_last (st : CoordState) (s : BMSSample)
    (elapsed interval : ℚ) (h0 : 0 ≤ elapsed) (hi : 0 < interval) :
    (async_update_data st (.ok s) elapsed interval).1.linkQ =
      setLast (dequeExtend st.linkQ
        (List.replicate (failEntries elapsed interval) false)) true ∧
    (async_update_data st (.ok s) elapsed interval).1.linkQ.length =
      (dequeExtend st.linkQ
        (List.replicate (failEntries elapsed interval) false)).length ∧
    (elapsed < interval → failEntries elapsed interval = 1) ∧
    (st.linkQ.length + failEntries elapsed interval ≤ 100 →
      (async_update_data st (.ok s) elapsed interval).1.linkQ =
        st.linkQ ++ List.replicate (failEntries elapsed interval - 1) false
          ++ [true]) ∧
    (elapsed < interval → st.linkQ.length < 100 →
      (async_update_data st (.ok s) elapsed interval).1.linkQ =
        st.linkQ ++ [true]) := by
  have hone : elapsed < interval → failEntries elapsed interval = 1 := by
    intro hlt
    unfold failEntries
    rw [floor_div_eq_zero elapsed interval h0 hi hlt]
    rfl
  have hsplit : st.linkQ.length + failEntries elapsed interval ≤ 100 →
      (async_update_data st (.ok s) elapsed interval).1.linkQ =
        st.linkQ ++ List.replicate (failEntries elapsed interval - 1) false
          ++ [true] := by
    intro hle
    show setLast (dequeExtend st.linkQ _) true = _
    rw [dequeExtend_eq_append _ _ (by simpa using hle)]
    obtain ⟨m, hm⟩ : ∃ m, failEntries elapsed interval = m + 1 :=
      ⟨failEntries elapsed interval - 1,
        by have := one_le_failEntries elapsed interval; omega⟩
    rw [hm, List.replicate_succ' m false]
    unfold setLast
    rw [← List.append_assoc, List.dropLast_concat]
    simp [List.append_assoc]
  refine ⟨rfl, ?_, hone, hsplit, ?_⟩
  · exact length_setLast _ _ (by
      apply List.ne_nil_of_length_pos
      rw [length_dequeExtend]
      simp only [List.length_replicate]
      have := one_le_failEntries elapsed interval
      omega)
  · intro hlt hcap
    have h1 := hone hlt
    have h2 := hsplit (by omega)
    rw [h1] at h2
    simpa using h2

/-- C4 witness: a success within one interval on the seeded history flips
exactly one pushed entry to `true`. -/
theorem C4_success_overwrites_last_witness :
    (async_update_data ⟨[false], false⟩
        (GatewayResult.ok ⟨PCode.intVal 0, none, none⟩) 0 1).1.linkQ =
      [false] ++ [true] :=
  (C4_success_overwrites_last ⟨[false], false⟩ ⟨PCode.intVal 0, none, none⟩ 0 1
      (by norm_num) (by norm_num)).2.2.2.2 (by norm_num) (by decide)

/-- C10: once the staleness flag is set, every refresh whose history does not
end in `true` invokes `disconnect(reset=True)` at the start of the cycle and
leaves the flag set; the flag is cleared only by a cycle whose history ends in
`true`; a failing cycle always leaves the newest entry `false` (so the
disconnect repeats), while a successful cycle leaves it `true` (so the next
cycle clears the flag and skips the disconnect). -/
theorem C10_stale_forces_reconnect_each_cycle (st : CoordState) (g : GatewayResult)
    (elapsed interval : ℚ) (h : st.linkQ ≠ []) :
    (st.stale = true → st.linkQ.getLastD false = false →
      (async_update_data st g elapsed interval).2.2 = true ∧
      (async_update_data st g elapsed interval).1.stale = true) ∧
    (st.linkQ.getLastD false = true →
      (async_update_data st g elapsed interval).2.2 = false ∧
      (async_update_data st g elapsed interval).1.stale = false) ∧
    (st.stale = true → (async_update_data st g elapsed interval).1.stale = false →
      st.linkQ.getLastD false = true) ∧
    ((∀ s, g ≠ GatewayResult.ok s) →
      (async_update_data st g elapsed interval).1.linkQ.getLastD false = false) ∧
    (∀ s, g = GatewayResult.ok s →
      (async_update_data st g elapsed interval).1.linkQ.getLastD false = true) := by
  refine ⟨?_, ?_, ?_, ?_, ?_⟩
  · intro hst hlast
    rw [update_reset_flag, update_post_stale, hst,
      device_stale_stale_last_false st.linkQ hlast]
    exact ⟨rfl, rfl⟩
  · intro hlast
    rw [update_reset_flag, update_post_stale,
      device_stale_last_true st.linkQ st.stale hlast]
    exact ⟨rfl, rfl⟩
  · intro hst hpost
    cases hlast : st.linkQ.getLastD false
    · rw [update_post_stale, hst,
        device_stale_stale_last_false st.linkQ hlast] at hpost
      exact absurd hpost (by simp)
    · rfl
  · intro hne
    have hq : (async_update_data st g elapsed interval).1.linkQ =
        dequeExtend st.linkQ
          (List.replicate (failEntries elapsed interval) false) := by
      cases g with
      | ok s => exact absurd rfl (hne s)
      | timeout => rfl
      | transportError m => rfl
      | noData => rfl
    rw [hq, getLastD_dequeExtend _ _ _ (failEntries_replicate_ne_nil elapsed interval),
      getLastD_replicate_false _ (one_le_failEntries elapsed interval)]
  · rintro s rfl
    show (setLast (dequeExtend st.linkQ _) true).getLastD false = true
    unfold setLast
    rw [getLastD_concat]

/-- C10 witness: with the flag set and a history ending in `false`, a timeout
cycle performs the forced disconnect and keeps the flag set. -/
theorem C10_stale_forces_reconnect_each_cycle_witness :
    (async_update_data ⟨[false], true⟩ GatewayResult.timeout 0 1).2.2 = true ∧
    (async_update_data ⟨[false], true⟩ GatewayResult.timeout 0 1).1.stale = true :=
  (C10_stale_forces_reconnect_each_cycle ⟨[false], true⟩ GatewayResult.timeout 0 1
      (by decide)).1 rfl rfl

/-! ## Helper lemmas for the reset verification loop -/

lemma and_bit12_eq_zero_iff (n : Nat) :
    (n &&& (1 <<< 12) = 0) ↔ n.testBit 12 = false := by
  rw [Nat.one_shiftLeft, Nat.and_two_pow]
  cases h : n.testBit 12 <;> simp

lemma verifyLoop_three (rd : Nat → Option BMSSample) :
    verifyLoop rd 3 0 =
      if checkAttempt (rd 0) then
        (true, [.sleep 1, .refresh])
      else if checkAttempt (rd 1) then
        (true, [.sleep 1, .refresh, .sleep (1/2), .refresh])
      else if checkAttempt (rd 2) then
        (true, [.sleep 1, .refresh, .sleep (1/2), .refresh, .sleep (1/2), .refresh])
      else
        (false, [.sleep 1, .refresh, .sleep (1/2), .refresh, .sleep (1/2), .refresh]) := by
  by_cases h0 : checkAttempt (rd 0) <;> by_cases h1 : checkAttempt (rd 1) <;>
    by_cases h2 : checkAttempt (rd 2) <;> simp [verifyLoop, h0, h1, h2]

lemma verifyLoop_success_iff (rd : Nat → Option BMSSample) :
    (verifyLoop rd 3 0).1 =
      (checkAttempt (rd 0) || checkAttempt (rd 1) || checkAttempt (rd 2)) := by
  rw [verifyLoop_three]
  by_cases h0 : checkAttempt (rd 0) <;> by_cases h1 : checkAttempt (rd 1) <;>
    by_cases h2 : checkAttempt (rd 2) <;> simp [h0, h1, h2]

lemma reset_error_of_verify_false (sto : Bool) (rd : Nat → Option BMSSample)
    (hf : (verifyLoop rd 3 0).1 = false) :
    (async_reset_software_lock true sto rd).1 = Except.error exhaustedMsg := by
  simp [async_reset_software_lock, hf]

/-! ## Claims C6, C7, C8, C9 -/

/-- C6: the verification loop makes at most 3 attempts (and only depends on
the first 3 refresh results, hence never a 4th attempt), sleeping 1.0 s
before the first attempt and 0.5 s before each subsequent one; an attempt
succeeds immediately iff the sample's `problem_code` is an integer with bit 12
clear, or `problem_code` is not an integer and both MOSFET flags are present
and `true`; otherwise it continues. -/
theorem C6_verification_loop (rd : Nat → Option BMSSample) :
    ((verifyLoop rd 3 0).2.count ResetEvent.refresh ≤ 3) ∧
    ((verifyLoop rd 3 0).2 = [.sleep 1, .refresh] ∨
     (verifyLoop rd 3 0).2 = [.sleep 1, .refresh, .sleep (1/2), .refresh] ∨
     (verifyLoop rd 3 0).2 =
       [.sleep 1, .refresh, .sleep (1/2), .refresh, .sleep (1/2), .refresh]) ∧
    (∀ rd' : Nat → Option BMSSample, (∀ i, i < 3 → rd i = rd' i) →
      verifyLoop rd 3 0 = verifyLoop rd' 3 0) ∧
    (∀ d : BMSSample, checkAttempt (some d) = true ↔
      ((∃ n, d.problem_code = PCode.intVal n ∧ n.testBit 12 = false) ∨
       ((∀ n, d.problem_code ≠ PCode.intVal n) ∧
         d.chrg_mosfet = some true ∧ d.dischrg_mosfet = some true))) := by
  refine ⟨?_, ?_, ?_, ?_⟩
  · rw [verifyLoop_three]
    by_cases h0 : checkAttempt (rd 0) <;> by_cases h1 : checkAttempt (rd 1) <;>
      by_cases h2 : checkAttempt (rd 2) <;> simp [h0, h1, h2, List.count_cons]
  · rw [verifyLoop_three]
    by_cases h0 : checkAttempt (rd 0) <;> by_cases h1 : checkAttempt (rd 1) <;>
      by_cases h2 : checkAttempt (rd 2) <;> simp [h0, h1, h2]
  · intro rd' hagree
    rw [verifyLoop_three, verifyLoop_three, hagree 0 (by norm_num),
      hagree 1 (by norm_num), hagree 2 (by norm_num)]
  · intro d
    cases hpc : d.problem_code with
    | intVal n =>
      by_cases hb : n &&& (1 <<< 12) = 0
      · simp only [checkAttempt, hpc, if_neg (not_not_intro hb)]
        constructor
        · intro _
          exact Or.inl ⟨n, rfl, (and_bit12_eq_zero_iff n).mp hb⟩
        · intro _
          trivial
      · simp only [checkAttempt, hpc, if_pos hb]
        constructor
        · intro hfalse
          exact absurd hfalse (by simp)
        · rintro (⟨m, hm, hbit⟩ | ⟨hno, -⟩)
          · obtain rfl : n = m := by injection hm
            exact absurd ((and_bit12_eq_zero_iff n).mpr hbit) hb
          · exact absurd rfl (hno n)
    | nonInt =>
      cases hc : d.chrg_mosfet <;> cases hd2 : d.dischrg_mosfet <;>
        simp [checkAttempt, hpc, hc, hd2, pyBool]
    | missing =>
      cases hc : d.chrg_mosfet <;> cases hd2 : d.dischrg_mosfet <;>
        simp [checkAttempt, hpc, hc, hd2, pyBool]

def rdAllNone : Nat → Option BMSSample := fun _ => none

def rdNoneThenLocked : Nat → Option BMSSample := fun i =>
  if i < 3 then none else some ⟨PCode.intVal (1 <<< 12), none, none⟩

/-- C6 witness: the loop's outcome is unchanged by refresh results beyond the
third attempt (no 4th attempt is ever consulted). -/
theorem C6_verification_loop_witness :
    verifyLoop rdAllNone 3 0 = verifyLoop rdNoneThenLocked 3 0 :=
  (C6_verification_loop rdAllNone).2.2.1 rdNoneThenLocked
    (fun i hi => by simp [rdAllNone, rdNoneThenLocked, hi])

/-- C7 (counterexample): the exhaustion error does NOT distinguish the
"still locked" case from the "status unavailable" case — a run whose three
attempts all report the lock bit set and a run whose three attempts yield no
sample at all raise the very same error. -/
theorem C7_error_counterexample :
    (async_reset_software_lock true false
        (fun _ => some ⟨PCode.intVal (1 <<< 12), none, none⟩)).1 =
      Except.error exhaustedMsg ∧
    (async_reset_software_lock true false (fun _ => none)).1 =
      Except.error exhaustedMsg ∧
    (async_reset_software_lock true false
        (fun _ => some ⟨PCode.intVal (1 <<< 12), none, none⟩)).1 =
      (async_reset_software_lock true false (fun _ => none)).1 := by
  refine ⟨rfl, rfl, rfl⟩

/-- C7 (amended): when the 3 verification attempts are exhausted without
success, the operation fails with the single fixed descriptive error
"Software lock still active or status unavailable after reset command.",
which names both the still-locked and the status-unavailable possibility but
does not indicate which one occurred. -/
theorem C7_exhaustion_error (sto : Bool) (rd : Nat → Option BMSSample)
    (hf : (verifyLoop rd 3 0).1 = false) :
    (async_reset_software_lock true sto rd).1 = Except.error exhaustedMsg ∧
    exhaustedMsg =
      "Software lock still active or status unavailable after reset command." :=
  ⟨reset_error_of_verify_false sto rd hf, rfl⟩

/-- C7 witness: three sample-less attempts exhaust the loop and raise the
fixed error. -/
theorem C7_exhaustion_error_witness :
    (async_reset_software_lock true false rdAllNone).1 =
      Except.error exhaustedMsg :=
  (C7_exhaustion_error false rdAllNone rfl).1

/-- Outcome of one `await self.async_refresh()` as seen through `self.data`.
The refresh is performed by the external `DataUpdateCoordinator.async_refresh`,
which catches update failures (recording them in `last_update_success`) rather
than raising: a failed refresh leaves `self.data` unchanged, while a
successful one replaces it with the new sample. -/
inductive RefreshOutcome where
  | ok (s : BMSSample)
  | fail
deriving DecidableEq

/-- `self.data` after one refresh: replaced on success, retained (possibly a
stale earlier sample) on failure. -/
def dataAfter (prev : Option BMSSample) (r : RefreshOutcome) : Option BMSSample :=
  match r with
  | .ok s => some s
  | .fail => prev

/-- The sequence of `self.data` values read by the verification loop
(`data = self.data` after attempt `i`'s refresh), starting from the value
`data0` held before the loop and applying each attempt's refresh outcome. -/
def dataSeq (data0 : Option BMSSample) (rs : Nat → RefreshOutcome) :
    Nat → Option BMSSample
  | 0 => dataAfter data0 (rs 0)
  | i + 1 => dataAfter (dataSeq data0 rs i) (rs (i + 1))

def rsAllFail : Nat → RefreshOutcome := fun _ => RefreshOutcome.fail

lemma reset_ok_of_verify_true (sto : Bool) (rd : Nat → Option BMSSample)
    (ht : (verifyLoop rd 3 0).1 = true) :
    (async_reset_software_lock true sto rd).1 = Except.ok () := by
  simp [async_reset_software_lock, ht]

/-- C8 (counterexample): a failed refresh CAN by itself cause the operation
to report success.  With every refresh failing (`rsAllFail`) but a stale
sample with `problem_code = 0` retained in `self.data` from before the loop,
the very first attempt evaluates the lock criteria on that stale sample and
returns success — the attempt is not skipped. -/
theorem C8_stale_data_counterexample :
    (async_reset_software_lock true false
        (dataSeq (some ⟨PCode.intVal 0, none, none⟩) rsAllFail)).1 =
      Except.ok () := rfl

/-- C8 (amended): a verification attempt is skipped without evaluating any
lock-status criterion exactly when `self.data` is empty after the refresh.
A failed refresh retains the previously held sample; when such a (possibly
stale) sample exists the criteria are evaluated on it, so a failed refresh
can make the operation report success.  If no sample is ever available the
operation fails, and any success had some attempt among the first 3 whose
`self.data` satisfied a success criterion. -/
theorem C8_skip_only_on_empty_data (sto : Bool) (rs : Nat → RefreshOutcome)
    (data0 : Option BMSSample) :
    checkAttempt none = false ∧
    dataAfter data0 RefreshOutcome.fail = data0 ∧
    ((∀ i, i < 3 → dataSeq data0 rs i = none) →
      (async_reset_software_lock true sto (dataSeq data0 rs)).1 =
        Except.error exhaustedMsg) ∧
    ((async_reset_software_lock true sto (dataSeq data0 rs)).1 = Except.ok () →
      ∃ i, i < 3 ∧ ∃ d, dataSeq data0 rs i = some d ∧
        checkAttempt (some d) = true) ∧
    (∀ d, data0 = some d → checkAttempt (some d) = true →
      (∀ i, rs i = RefreshOutcome.fail) →
      (async_reset_software_lock true sto (dataSeq data0 rs)).1 =
        Except.ok ()) := by
  refine ⟨rfl, rfl, ?_, ?_, ?_⟩
  · intro hall
    apply reset_error_of_verify_false
    rw [verifyLoop_success_iff, hall 0 (by norm_num), hall 1 (by norm_num),
      hall 2 (by norm_num)]
    rfl
  · intro hok
    have hv : (verifyLoop (dataSeq data0 rs) 3 0).1 = true := by
      by_cases hv : (verifyLoop (dataSeq data0 rs) 3 0).1
      · exact hv
      · rw [reset_error_of_verify_false sto _ (by simpa using hv)] at hok
        exact absurd hok (by simp)
    rw [verifyLoop_success_iff] at hv
    have hone : checkAttempt (dataSeq data0 rs 0) = true ∨
        checkAttempt (dataSeq data0 rs 1) = true ∨
        checkAttempt (dataSeq data0 rs 2) = true := by
      rcases Bool.or_eq_true_iff.mp hv with h | h
      · rcases Bool.or_eq_true_iff.mp h with h' | h'
        · exact Or.inl h'
        · exact Or.inr (Or.inl h')
      · exact Or.inr (Or.inr h)
    have key : ∀ i : Nat, checkAttempt (dataSeq data0 rs i) = true →
        ∃ d, dataSeq data0 rs i = some d ∧ checkAttempt (some d) = true := by
      intro i hi
      cases hq : dataSeq data0 rs i with
      | none => rw [hq] at hi; exact absurd hi (by simp [checkAttempt])
      | some d => exact ⟨d, rfl, by rw [hq] at hi; exact hi⟩
    rcases hone with h | h | h
    · exact ⟨0, by norm_num, key 0 h⟩
    · exact ⟨1, by norm_num, key 1 h⟩
    · exact ⟨2, by norm_num, key 2 h⟩
  · rintro d rfl hc hall
    apply reset_ok_of_verify_true
    have h0 : dataSeq (some d) rs 0 = some d := by
      show dataAfter (some d) (rs 0) = some d
      rw [hall 0]
      rfl
    rw [verifyLoop_success_iff, h0, hc]
    rfl

/-- C8 witness: a retained MOSFET-based success sample plus all-failing
refreshes still reports success. -/
theorem C8_skip_only_on_empty_data_witness :
    (async_reset_software_lock true false
        (dataSeq (some ⟨PCode.nonInt, some true, some true⟩) rsAllFail)).1 =
      Except.ok () :=
  (C8_skip_only_on_empty_data false rsAllFail
      (some ⟨PCode.nonInt, some true, some true⟩)).2.2.2.2
    ⟨PCode.nonInt, some true, some true⟩ rfl rfl (fun _ => rfl)

/-- C9: calling the reset on a device that is not a JBD BMS fails immediately
with the unsupported-operation error and produces an empty event trace: no
lock acquisition, no connect, no frame send, no refresh (hence no link-history
or staleness mutation, which only refresh cycles perform). -/
theorem C9_unsupported_no_io (sto : Bool) (rd : Nat → Option BMSSample) :
    async_reset_software_lock false sto rd = (Except.error unsupportedMsg, []) ∧
    (async_reset_software_lock false sto rd).2.count ResetEvent.refresh = 0 ∧
    (async_reset_software_lock false sto rd).2.count ResetEvent.lockAcquire = 0 ∧
    (async_reset_software_lock false sto rd).2.count ResetEvent.connect = 0 ∧
    (∀ f w, (async_reset_software_lock false sto rd).2.count
      (ResetEvent.sendFrame f w) = 0) ∧
    unsupportedMsg = "Reset software lock is only supported for JBD BMS." :=
  ⟨rfl, rfl, rfl, rfl, fun _ _ => rfl, rfl⟩
